import Mathlib

/-!
Verification of the postgres-mcp-server gateway against its design spec.

The development shallowly embeds the Python sources:
  * `src/guMCP/src/servers/pg/database.py` — the `Database` connection-pool
    manager (pool map, config hot-reload with content hashing);
  * `src/guMCP/src/auth/jwt_utils.py` — the `JWTUtils` token issuer/verifier;
  * `src/guMCP/src/servers/remote.py` — the `JWTMiddleware` auth gate;
  * `src/guMCP/src/servers/pg/main.py` — `execute_query` and `handle_call_tool`.

Modelling conventions:
  * Python dicts keyed by strings become association lists with Python's
    dict semantics (assignment keeps the position of an existing key,
    otherwise appends; deletion filters the key out).
  * Parsed JSON documents become the inductive `Json` (numbers are
    modelled as integers; floating point is out of scope for the claims).
  * `json.dumps(content, sort_keys=True)` is embedded as `dumps`, with
    Python's default separators `", "` and `": "`.  `sha1` in
    `Database._hash_config` is modelled as the identity on the serialized
    string: only equality of hashes is ever consumed by the code, and
    sha1 is a deterministic function of the serialization.
  * `asyncpg.create_pool` is modelled as allocating a fresh pool record
    carrying the keyword arguments of the call; the pool-construction
    counter `next_pool_id` counts these allocations (network failures of
    pool creation are out of scope).  `command_timeout=60.0` is a float
    and is not carried in the model.
  * Raised exceptions become `Except` errors; in the source the only
    mutation of `Database` state in each method happens after every
    raise site, so an error return leaving the state with the caller is
    exactly the in-place behaviour of the Python object.
-/

/-! ### Kernel-reducible string ordering (for `sort_keys=True`) -/

/-- Strict comparison of characters by code point. -/
def charLtB (a b : Char) : Bool := a.toNat < b.toNat

/-- Lexicographic strict comparison of character lists. -/
def charsLtB : List Char → List Char → Bool
  | _, [] => false
  | [], _ :: _ => true
  | a :: as, b :: bs =>
      if charLtB a b then true else if charLtB b a then false else charsLtB as bs

/-- Lexicographic strict comparison of strings (kernel-reducible, unlike
`String.decidableLT`). -/
def strLtB (a b : String) : Bool := charsLtB a.data b.data

/-- Total order on (key, serialized value) pairs: by key first, then by the
serialized value.  `json.dumps(…, sort_keys=True)` sorts the items of a dict
by key alone; dict keys are unique, so on any list of pairs arising from a
parsed document the value component never decides the order. -/
def pairLeB (a b : String × String) : Bool :=
  strLtB a.1 b.1 || (a.1 == b.1 && !(strLtB b.2 a.2))

/-- `pairLeB` as a relation, for `List.insertionSort`. -/
def pairLe (a b : String × String) : Prop := pairLeB a b = true

instance : DecidableRel pairLe := fun a b => by unfold pairLe; infer_instance

/-! ### Parsed JSON documents and `json.dumps(content, sort_keys=True)` -/

/-- The possible results of `json.loads` on a config document. -/
inductive Json where
  | null : Json
  | bool (b : Bool) : Json
  | num (n : Int) : Json
  | str (s : String) : Json
  | arr (xs : List Json) : Json
  | obj (kvs : List (String × Json)) : Json
deriving Repr

/-- Render one `"key": value` item of an object, Python's default `": "`
separator included. -/
def renderPair (p : String × String) : String := "\x22" ++ p.1 ++ "\x22" ++ ": " ++ p.2

/-- Join rendered items with Python's default `", "` separator. -/
def renderPairs (l : List (String × String)) : String :=
  String.intercalate ", " (l.map renderPair)

mutual
/-- `json.dumps(content, sort_keys=True)`: serialize with dict items sorted
by key at every level. -/
def dumps : Json → String
  | .null => "null"
  | .bool b => if b then "true" else "false"
  | .num n => toString n
  | .str s => "\x22" ++ s ++ "\x22"
  | .arr xs => "[" ++ dumpsList xs ++ "]"
  | .obj kvs =>
      "\x7b" ++ renderPairs (List.insertionSort pairLe (dumpsPairs kvs)) ++ "\x7d"

/-- Array elements, `", "`-separated. -/
def dumpsList : List Json → String
  | [] => ""
  | [x] => dumps x
  | x :: y :: xs => dumps x ++ ", " ++ dumpsList (y :: xs)

/-- Serialize the value of every item of an object. -/
def dumpsPairs : List (String × Json) → List (String × String)
  | [] => []
  | (k, v) :: kvs => (k, dumps v) :: dumpsPairs kvs
end

/-- `Database._hash_config`: `sha1(json.dumps(content, sort_keys=True).encode()).hexdigest()`.
The sha1 digest is modelled as the identity on the serialized string; the
code only ever compares hashes for equality, and equal serializations give
equal digests. -/
def hash_config (content : Json) : String := dumps content

/-! ### Python dict semantics on association lists -/

/-- `k in d` for a dict. -/
def dictContains : List (String × α) → String → Bool
  | [], _ => false
  | p :: d, k => p.1 == k || dictContains d k

/-- `d.get(k)` / `d[k]` lookup for a dict. -/
def dictGet : List (String × α) → String → Option α
  | [], _ => none
  | p :: d, k => if p.1 == k then some p.2 else dictGet d k

/-- `d[k] = v`: overwrite in place when the key exists (dict keys are
unique, so at most one entry matches), append at the end otherwise. -/
def dictSet : List (String × α) → String → α → List (String × α)
  | [], k, v => [(k, v)]
  | p :: d, k, v => if p.1 == k then (k, v) :: d else p :: dictSet d k v

/-- `del d[k]`. -/
def dictDel (d : List (String × α)) (k : String) : List (String × α) :=
  d.filter (fun p => p.1 != k)

/-- `k in j` for a parsed document: key membership when the document is a
mapping.  (On non-mapping shapes Python's `in` means value membership,
substring search, or a `TypeError`; no claim exercises those, and every
theorem touching membership carries a mapping-shaped hypothesis.) -/
def jsonHasKey (j : Json) (k : String) : Bool :=
  match j with
  | .obj kvs => dictContains kvs k
  | _ => false

/-! ### `Database` (src/guMCP/src/servers/pg/database.py) -/

/-- Python exceptions raised by the embedded code. -/
inductive PyError where
  | valueError (msg : String)
  | keyError (key : String)
  | typeError (msg : String)
deriving Repr, DecidableEq

/-- `str(e)` of an exception, as interpolated into error payloads. -/
def pyErrMsg : PyError → String
  | .valueError msg => msg
  | .keyError key => "\x27" ++ key ++ "\x27"
  | .typeError msg => msg

/-- An asyncpg pool, recording the keyword arguments of the
`asyncpg.create_pool` call that built it.  `id` numbers the constructions
(the construction-side-effect counter of the model). -/
structure Pool where
  id : Nat
  dsn : Json
  min_size : Nat
  max_size : Nat
  server_settings : List (String × String)
deriving Repr

/-- The `server_settings` argument of every `asyncpg.create_pool` call in
`Database.initialize`. -/
def poolServerSettings : List (String × String) :=
  [("default_transaction_read_only", "true")]

/-- One `asyncpg.create_pool(conn_str, min_size=2, max_size=4, …,
server_settings={"default_transaction_read_only": "true"})` construction. -/
def mkPool (id : Nat) (dsn : Json) : Pool :=
  { id := id, dsn := dsn, min_size := 2, max_size := 4,
    server_settings := poolServerSettings }

/-- The mutable state of the `Database` singleton: `self._pools`,
`self._connection_map`, `self._last_config_hash`, plus the model's
pool-construction counter. -/
structure Database where
  pools : List (String × Pool)
  connection_map : Json
  last_config_hash : Option String
  next_pool_id : Nat
deriving Repr

/-- `Database.__init__`: empty pool map, empty connection map, no hash yet. -/
def Database.mk0 : Database :=
  { pools := [], connection_map := .obj [], last_config_hash := none,
    next_pool_id := 0 }

/-- `Database.get_connection_string`: raise `ValueError(f"Unknown connection
ID {conn_id}")` when the id is not in the connection map, else return the
mapped credential. -/
def Database.get_connection_string (db : Database) (conn_id : String) :
    Except PyError Json :=
  match db.connection_map with
  | .obj kvs =>
      match dictGet kvs conn_id with
      | some v => .ok v
      | none => .error (.valueError ("Unknown connection ID " ++ conn_id))
  | _ =>
      -- Membership on a non-mapping document (possible after a shapeless
      -- reload, see C4): Python would value-test a list or substring-test a
      -- string and raise a TypeError on indexing; no claim reaches here.
      .error (.typeError "connection map is not a mapping")

/-- `Database.initialize` (the name `initialize` is reserved in this
development's environment): raise when the id is falsy, reuse an existing
pool, otherwise resolve the credential and construct a pool under the id.
The empty string models every falsy `conn_id` (`None` and `""`). -/
def Database.initPool (db : Database) (conn_id : String) :
    Except PyError Database :=
  if conn_id = "" then .error (.valueError "Connection ID is required")
  else if dictContains db.pools conn_id then .ok db
  else
    match db.get_connection_string conn_id with
    | .error e => .error e
    | .ok conn_str =>
        .ok { db with
              pools := dictSet db.pools conn_id (mkPool db.next_pool_id conn_str),
              next_pool_id := db.next_pool_id + 1 }

/-- `self._pools[conn_id]`: dict subscription, `KeyError` when absent. -/
def pyDictLookup (d : List (String × α)) (k : String) : Except PyError α :=
  match dictGet d k with
  | some v => .ok v
  | none => .error (.keyError k)

/-- `Database.get_connection`: initialize the pool on first use of the id,
then acquire a connection from the pool under the id.  The handed-out
connection is represented by the pool it is checked out of. -/
def Database.get_connection (db : Database) (conn_id : String) :
    Except PyError (Database × Pool) :=
  if dictContains db.pools conn_id then
    match pyDictLookup db.pools conn_id with
    | .ok p => .ok (db, p)
    | .error e => .error e
  else
    match db.initPool conn_id with
    | .error e => .error e
    | .ok db' =>
        match pyDictLookup db'.pools conn_id with
        | .ok p => .ok (db', p)
        | .error e => .error e

/-- `Database.close(conn_id=None)`: with a truthy id, close and drop that
pool (if any); with a falsy id (`None` — or `""`, which Python's `if
conn_id:` also sends to the else branch), close and drop every pool. -/
def Database.close (db : Database) (conn_id : Option String) : Database :=
  match conn_id with
  | some cid =>
      if cid = "" then { db with pools := [] }
      else if dictContains db.pools cid then
        { db with pools := dictDel db.pools cid }
      else db
  | none => { db with pools := [] }

/-- What one iteration of the refresh loop read from the config source. -/
inductive ReadResult where
  | missingFile
  | readError
  | parsed (content : Json)

/-- One pass of `Database._reload_config_if_changed`, as driven by
`_refresh_loop`: a missing file returns (warning logged); a read/parse
failure raises, and `_refresh_loop` catches and logs it (state unchanged
either way); parsed content is hashed and swapped in only when the hash
differs from the last applied one.  Pools are never touched. -/
def Database.reload_config_step (db : Database) (r : ReadResult) : Database :=
  match r with
  | .missingFile => db
  | .readError => db
  | .parsed content =>
      let current_hash := hash_config content
      if some current_hash == db.last_config_hash then db
      else { db with last_config_hash := some current_hash,
                     connection_map := content }

/-! ### `JWTUtils` (src/guMCP/src/auth/jwt_utils.py) -/

/-- The JWT claims this application reads and writes: the `user_id` claim
(absent in tokens minted elsewhere), and the `iat`/`exp` timestamps in epoch
seconds (`datetime` values are encoded as timestamps by PyJWT; the KST
timezone attached in the source does not change the epoch value). -/
structure JwtPayload where
  user_id : Option String
  iat : Int
  exp : Int
deriving Repr, DecidableEq

/-- A serialization of the payload, underlying the signature model. -/
def payloadRepr (p : JwtPayload) : String :=
  "user_id=" ++ (match p.user_id with | some u => u | none => "<absent>") ++
  ";iat=" ++ toString p.iat ++ ";exp=" ++ toString p.exp

/-- HS256 signing, modelled abstractly as a deterministic tag over
(secret, payload); verification compares tags for equality, which is
exactly how an HMAC is checked. -/
def hmacSign (secret : String) (p : JwtPayload) : String :=
  "HS256:" ++ secret ++ ":" ++ payloadRepr p

/-- A bearer token: either a string that does not decode as a JWT at all
(structural defect), or a well-formed JWT carrying a payload and a
signature. -/
inductive Token where
  | malformed (raw : String)
  | signed (payload : JwtPayload) (sig : String)
deriving Repr, DecidableEq

/-- `JWTUtils.generate_jwt_token`: stamp `iat = now`,
`exp = now + timedelta(hours=24)`, sign with the held secret. -/
def generate_jwt_token (secret : String) (user_id : String) (now : Int) : Token :=
  .signed { user_id := some user_id, iat := now, exp := now + 24 * 3600 }
    (hmacSign secret { user_id := some user_id, iat := now, exp := now + 24 * 3600 })

/-- The `jwt.InvalidTokenError` subclasses `jwt.decode` can raise here. -/
inductive JwtDecodeError where
  | decodeError
  | invalidSignature
  | expiredSignature
deriving Repr, DecidableEq

/-- `jwt.decode(token, secret, algorithms=["HS256"])`: a structurally
defective token fails to decode; a signature mismatch is rejected; an `exp`
at or before the current time is expired (PyJWT treats `exp <= now` as
expired, with zero leeway by default). -/
def jwt_decode (secret : String) (tok : Token) (now : Int) :
    Except JwtDecodeError JwtPayload :=
  match tok with
  | .malformed _ => .error .decodeError
  | .signed p sig =>
      if sig ≠ hmacSign secret p then .error .invalidSignature
      else if p.exp ≤ now then .error .expiredSignature
      else .ok p

/-- `JWTUtils.verify_jwt_token`: every `jwt.InvalidTokenError` is caught and
re-raised as the one `ValueError("Invalid or expired JWT token")`; a decoded
payload without a `user_id` claim raises a distinct
`ValueError("Invalid JWT payload: user_id missing")` (that raise site is
inside the `try` but `ValueError` is not a `jwt.InvalidTokenError`, so it
propagates).  Errors are the `ValueError` messages. -/
def verify_jwt_token (secret : String) (tok : Token) (now : Int) :
    Except String JwtPayload :=
  match jwt_decode secret tok now with
  | .error _ => .error "Invalid or expired JWT token"
  | .ok p =>
      match p.user_id with
      | none => .error "Invalid JWT payload: user_id missing"
      | some _ => .ok p

/-- `os.environ.get("JWT_SECRET", "default-secret")`. -/
def environGet (env : Option String) (dflt : String) : String :=
  match env with
  | some v => v
  | none => dflt

/-- Python's `a or b` on an optional string: `b` when `a` is `None` or
empty (falsy), else `a`. -/
def pyOrStr (a : Option String) (b : String) : String :=
  match a with
  | some s => if s = "" then b else s
  | none => b

/-- `JWTUtils.__init__`: `self._jwt_secret = jwt_secret or
environ.get("JWT_SECRET", "default-secret")`. -/
def jwtUtilsInitSecret (jwt_secret : Option String) (env : Option String) : String :=
  pyOrStr jwt_secret (environGet env "default-secret")

/-! ### `JWTMiddleware` (src/guMCP/src/servers/remote.py) -/

/-- The paths `dispatch` exempts from authentication. -/
def authSkipPaths : List String := ["/metrics", "/", "/health_check", "/token"]

/-- The `Authorization` header of a request, parsed: absent, present but
not of the form `Bearer <token>`, or a bearer token. -/
inductive AuthHeader where
  | absent
  | notBearer (raw : String)
  | bearer (tok : Token)
deriving Repr

/-- A `JSONResponse(body, status_code)`. -/
structure HttpResponse where
  status : Nat
  body : List (String × Json)
deriving Repr

/-- `JWTMiddleware.dispatch`: skip the exempt paths; reject a missing or
non-Bearer header with 401; verify the bearer token, rejecting a
`ValueError` with a 401 whose body is `{"error": str(e)}`; on success
forward the request with `request.state.user_id` set from the payload.
`.ok u` is the forwarded request (`u = none` on exempt paths, where no user
is attached). -/
def jwtMiddlewareDispatch (secret : String) (now : Int) (path : String)
    (h : AuthHeader) : Except HttpResponse (Option String) :=
  if path ∈ authSkipPaths then .ok none
  else
    match h with
    | .absent =>
        .error { status := 401,
                 body := [("error", .str "Missing or invalid Authorization header")] }
    | .notBearer _ =>
        .error { status := 401,
                 body := [("error", .str "Missing or invalid Authorization header")] }
    | .bearer tok =>
        match verify_jwt_token secret tok now with
        | .ok p => .ok p.user_id
        | .error msg => .error { status := 401, body := [("error", .str msg)] }

/-! ### `execute_query` and `handle_call_tool` (src/guMCP/src/servers/pg/main.py) -/

/-- The outcome of `conn.fetch(query, *params)` is decided by the external
database; it is a parameter of the embedding.  `.ok records` is a fetched
row list, `.error msg` a raised exception's `str`. -/
def FetchOracle : Type := Json → List Json → Except String (List Json)

/-- A `TextContent` whose `text` is a `json.dumps` of the given object is
modelled by the object itself; the `Unknown tool` branch returns plain
text. -/
inductive Content where
  | jsonObj (fields : List (String × Json)) : Content
  | text (s : String) : Content
deriving Repr

/-- `execute_query(query, conn_id, params)`: acquire a connection for the
id (initializing the pool on first use — an acquisition failure propagates
to the caller), issue `SET TRANSACTION READ ONLY` on the connection, then
fetch.  The result carries the updated pool state, the response contents,
and the ordered list of commands sent on the acquired connection.
(The `if not global_db` guard is skipped: `global_db` is a constructed
`Database` instance, always truthy.) -/
def execute_query (fetch : FetchOracle) (db : Database) (query : Json)
    (conn_id : String) (params : Option (List Json)) :
    Except PyError (Database × List Content × List Json) :=
  match db.get_connection conn_id with
  | .error e => .error e
  | .ok (db', _conn) =>
      let cmds : List Json := [.str "SET TRANSACTION READ ONLY", query]
      match fetch query (params.getD []) with
      | .ok records =>
          .ok (db', [.jsonObj [("success", .bool true), ("data", .arr records)]], cmds)
      | .error e =>
          .ok (db', [.jsonObj [("success", .bool false), ("error", .str e)]], cmds)

/-- The guard response of `handle_call_tool` when the session's bound
connection id is falsy. -/
def connIdRequiredResp : List Content :=
  [.jsonObj [("success", .bool false),
             ("error", .str "conn_id is required for database operations")]]

/-- `{"success": false, "error": msg}`. -/
def failResp (msg : String) : List Content :=
  [.jsonObj [("success", .bool false), ("error", .str msg)]]

/-- `arguments.get("params", None)` followed by the scalar-to-list
normalization (`if params is not None and not isinstance(params, (list,
tuple)): params = [params]`).  A JSON `null` argument is Python `None`. -/
def getParamsArg (args : List (String × Json)) : Option (List Json) :=
  match dictGet args "params" with
  | none => none
  | some .null => none
  | some (.arr xs) => some xs
  | some v => some [v]

/-- `arguments.get("schema", "public")`, interpolated into the metadata
queries as a parameter or into an f-string. -/
def getSchemaArg (args : List (String × Json)) : Json :=
  match dictGet args "schema" with
  | some v => v
  | none => .str "public"

/-- Python `str()` of a parsed JSON value, as used by f-string
interpolation into the row-count and sample queries (only string arguments
are meaningful there; other shapes are rendered best-effort). -/
def pyStr : Json → String
  | .str s => s
  | j => dumps j

/-- The fixed query of `pg_list_schemas`. -/
def listSchemasQuery : String :=
  "SELECT schema_name FROM information_schema.schemata WHERE schema_name IN (SELECT nspname FROM pg_namespace WHERE has_schema_privilege(nspname, \x27USAGE\x27)) ORDER BY schema_name;"

/-- The parametrized query of `pg_list_tables`. -/
def listTablesQuery : String :=
  "SELECT table_name FROM information_schema.tables WHERE table_schema = $1 AND has_table_privilege(table_schema || \x27.\x27 || table_name, \x27SELECT\x27) ORDER BY table_name;"

/-- The parametrized query of `pg_list_table_metadata`. -/
def listTableMetadataQuery : String :=
  "SELECT table_name, table_type, obj_description((\x27\x22\x27 || table_schema || \x27\x22.\x22\x27 || table_name || \x27\x22\x27)::regclass, \x27pg_class\x27) AS table_comment FROM information_schema.tables WHERE table_schema = $1 AND table_name = $2 AND has_table_privilege(table_schema || \x27.\x27 || table_name, \x27SELECT\x27) ORDER BY table_name;"

/-- The parametrized query of `pg_list_columns_metadata`. -/
def listColumnsMetadataQuery : String :=
  "SELECT column_name, data_type, character_maximum_length, numeric_precision, numeric_scale, is_nullable, column_default, col_description((\x27\x22\x27 || table_schema || \x27\x22.\x22\x27 || table_name || \x27\x22\x27)::regclass, ordinal_position) AS column_comment FROM information_schema.columns WHERE table_schema = $1 AND table_name = $2 ORDER BY ordinal_position;"

/-- The f-string query of `pg_count_table_rows`. -/
def countRowsQuery (schema table : Json) : String :=
  "SELECT COUNT(*) AS row_count FROM \x22" ++ pyStr schema ++ "\x22.\x22" ++ pyStr table ++ "\x22;"

/-- The f-string query of `pg_sample_table_rows`. -/
def sampleRowsQuery (schema table : Json) : String :=
  "SELECT * FROM \x22" ++ pyStr schema ++ "\x22.\x22" ++ pyStr table ++ "\x22 LIMIT 3;"

/-- `handle_call_tool(name, arguments)` on a backend instance whose bound
`server.conn_id` is `connId`.  The result is `(response, pool state, number
of database operations performed)`; `response = none` models the implicit
Python `None` return of the `pg_connect` fall-through when a pool already
exists.  A database operation is an attempted pool construction, a pool
close, or a query execution. -/
def handle_call_tool (fetch : FetchOracle) (connId : Option String)
    (name : String) (arguments : Option (List (String × Json)))
    (db : Database) : Option (List Content) × Database × Nat :=
  let args := arguments.getD []
  match connId with
  | none => (some connIdRequiredResp, db, 0)
  | some cid =>
    if cid = "" then (some connIdRequiredResp, db, 0)
    else if name = "pg_connect" then
      if jsonHasKey db.connection_map cid = false then
        (some (failResp "Unknown connection ID"), db, 0)
      else if dictContains db.pools cid = false then
        match db.initPool cid with
        | .ok db' => (some [.jsonObj [("success", .bool true)]], db', 1)
        | .error _ =>
            (some (failResp "Failed to initialize pool for connection ID"), db, 1)
      else (none, db, 0)
    else if name = "pg_disconnect" then
      if dictContains db.pools cid = false then
        (some (failResp "Unknown connection ID"), db, 0)
      else
        (some [.jsonObj [("success", .bool true)]],
         { db with pools := dictDel db.pools cid }, 1)
    else if name = "pg_query" then
      if dictContains args "query" = false then
        (some (failResp "SQL(postgreSQL) query is required"), db, 0)
      else
        match pyDictLookup args "query" with
        | .error e => (some (failResp (pyErrMsg e)), db, 0)
        | .ok query =>
            match execute_query fetch db query cid (getParamsArg args) with
            | .ok (db', resp, _) => (some resp, db', 1)
            | .error e => (some (failResp (pyErrMsg e)), db, 1)
    else if name = "pg_list_schemas" then
      match execute_query fetch db (.str listSchemasQuery) cid none with
      | .ok (db', resp, _) => (some resp, db', 1)
      | .error e => (some (failResp (pyErrMsg e)), db, 1)
    else if name = "pg_list_tables" then
      match execute_query fetch db (.str listTablesQuery) cid
          (some [getSchemaArg args]) with
      | .ok (db', resp, _) => (some resp, db', 1)
      | .error e => (some (failResp (pyErrMsg e)), db, 1)
    else if name = "pg_list_table_metadata" then
      match execute_query fetch db (.str listTableMetadataQuery) cid
          (some [getSchemaArg args, (dictGet args "table_name").getD .null]) with
      | .ok (db', resp, _) => (some resp, db', 1)
      | .error e => (some (failResp (pyErrMsg e)), db, 1)
    else if name = "pg_list_columns_metadata" then
      match pyDictLookup args "table_name" with
      | .error e => (some (failResp (pyErrMsg e)), db, 0)
      | .ok table =>
          match execute_query fetch db (.str listColumnsMetadataQuery) cid
              (some [getSchemaArg args, table]) with
          | .ok (db', resp, _) => (some resp, db', 1)
          | .error e => (some (failResp (pyErrMsg e)), db, 1)
    else if name = "pg_count_table_rows" then
      match pyDictLookup args "table_name" with
      | .error e => (some (failResp (pyErrMsg e)), db, 0)
      | .ok table =>
          match execute_query fetch db
              (.str (countRowsQuery (getSchemaArg args) table)) cid none with
          | .ok (db', resp, _) => (some resp, db', 1)
          | .error e => (some (failResp (pyErrMsg e)), db, 1)
    else if name = "pg_sample_table_rows" then
      match pyDictLookup args "table_name" with
      | .error e => (some (failResp (pyErrMsg e)), db, 0)
      | .ok table =>
          match execute_query fetch db
              (.str (sampleRowsQuery (getSchemaArg args) table)) cid none with
          | .ok (db', resp, _) => (some resp, db', 1)
          | .error e => (some (failResp (pyErrMsg e)), db, 1)
    else (some [.text ("Unknown tool: " ++ name)], db, 0)

/-! ### Interleaved pool initialization (for the concurrency claim)

`Database.initialize` runs on an asyncio event loop; its only suspension
point is `await asyncpg.create_pool(...)`.  A task therefore executes two
atomic segments: (1) the falsy-id check, the `conn_id in self._pools`
check, the credential lookup, and entering `create_pool` — the construction
of the pool object happens inside this awaited call, so the model allocates
the pool (bumping the construction counter) here; (2) after the await, the
assignment `self._pools[conn_id] = pool` and the return.  Between the two
segments the event loop may run the other task. -/

/-- Where one task inside `Database.initialize` stands. -/
inductive InitPhase where
  | ready
  | awaitingCreate (p : Pool)
  | finished (r : Except PyError Unit)
deriving Repr

/-- One atomic segment of `Database.initialize(conn_id)` for one task. -/
def stepInit (conn_id : String) (db : Database) : InitPhase → Database × InitPhase
  | .ready =>
      if conn_id = "" then
        (db, .finished (.error (.valueError "Connection ID is required")))
      else if dictContains db.pools conn_id then (db, .finished (.ok ()))
      else
        match db.get_connection_string conn_id with
        | .error e => (db, .finished (.error e))
        | .ok conn_str =>
            ({ db with next_pool_id := db.next_pool_id + 1 },
             .awaitingCreate (mkPool db.next_pool_id conn_str))
  | .awaitingCreate p =>
      ({ db with pools := dictSet db.pools conn_id p }, .finished (.ok ()))
  | .finished r => (db, .finished r)

/-- Two tasks running `Database.initialize(conn_id)` against the shared
state; the schedule picks which task runs its next segment. -/
structure ConcState where
  db : Database
  t1 : InitPhase
  t2 : InitPhase

/-- Run a cooperative schedule (`true` steps task 1, `false` task 2). -/
def runSched (conn_id : String) : List Bool → ConcState → ConcState
  | [], s => s
  | b :: rest, s =>
      if b then
        let r := stepInit conn_id s.db s.t1
        runSched conn_id rest { db := r.1, t1 := r.2, t2 := s.t2 }
      else
        let r := stepInit conn_id s.db s.t2
        runSched conn_id rest { db := r.1, t1 := s.t1, t2 := r.2 }

/-! ### Support definitions for the claims -/

/-- Invariants of every reachable `Database` state: pool-map keys are
distinct, non-falsy, and every stored pool was allocated below the
construction counter. -/
def Database.WF (db : Database) : Prop :=
  (db.pools.map Prod.fst).Nodup ∧
  ∀ kp ∈ db.pools, kp.1 ≠ "" ∧ kp.2.id < db.next_pool_id

/-- Every pool in the map was created with
`default_transaction_read_only = "true"`. -/
def poolsReadOnly (db : Database) : Prop :=
  ∀ kp ∈ db.pools, kp.2.server_settings = poolServerSettings

/-- A token that is structurally defective, carries a signature not made by
the verifier's secret, or is past its expiry at the given time. -/
def tokenBad (secret : String) (now : Int) : Token → Prop
  | .malformed _ => True
  | .signed p s => s ≠ hmacSign secret p ∨ p.exp ≤ now

/-- A one-entry config document, used by the concrete scenarios below. -/
def ceCfg1 : Json := .obj [("db1", .str "s")]

/-- Config applied to a fresh `Database` (first refresh pass). -/
def ceDb1 : Database := Database.mk0.reload_config_step (.parsed ceCfg1)

/-- … then the pool for `"db1"` is initialized … -/
def ceDb2 : Database :=
  match ceDb1.initPool "db1" with
  | .ok d => d
  | .error _ => ceDb1

/-- … then a refresh applies a config from which `"db1"` was removed. -/
def ceDb3 : Database := ceDb2.reload_config_step (.parsed (.obj []))

/-- A state with one applied config and one open pool. -/
def c4Db : Database :=
  { pools := [("db1", mkPool 0 (.str "s"))], connection_map := ceCfg1,
    last_config_hash := some (hash_config ceCfg1), next_pool_id := 1 }

/-- A state with an applied config and no pools yet. -/
def c5Db : Database :=
  { pools := [], connection_map := ceCfg1, last_config_hash := none,
    next_pool_id := 0 }

/-- Both tasks about to run `Database.initialize("db1")`. -/
def c5Start : ConcState := { db := c5Db, t1 := .ready, t2 := .ready }

/-- The state after `c5Db.get_connection "db1"` initializes the first pool. -/
def c9Db' : Database :=
  { pools := [("db1", mkPool 0 (.str "s"))], connection_map := ceCfg1,
    last_config_hash := none, next_pool_id := 1 }

/-- A two-entry config document. -/
def c2Cfg : Json := .obj [("a", .str "1"), ("b", .str "2")]

/-- A state whose stored hash is the hash of `c2Cfg`. -/
def c2Db : Database :=
  { pools := [("a", mkPool 0 (.str "1"))], connection_map := c2Cfg,
    last_config_hash := some (hash_config c2Cfg), next_pool_id := 1 }

/-! ### Association-list (Python dict) lemmas -/

theorem dictGet_eq_some_of_contains {α : Type} {d : List (String × α)} {k : String}
    (h : dictContains d k = true) : ∃ v, dictGet d k = some v := by
  induction d with
  | nil => simp [dictContains] at h
  | cons a d ih =>
      by_cases hk : a.1 = k
      · exact ⟨a.2, by simp [dictGet, hk]⟩
      · simp only [dictContains, Bool.or_eq_true, beq_iff_eq, hk, false_or] at h
        obtain ⟨v, hv⟩ := ih h
        exact ⟨v, by simp [dictGet, hk, hv]⟩

theorem dictGet_eq_none_of_not_contains {α : Type} {d : List (String × α)} {k : String}
    (h : dictContains d k = false) : dictGet d k = none := by
  induction d with
  | nil => simp [dictGet]
  | cons a d ih =>
      simp only [dictContains, Bool.or_eq_false_iff, beq_eq_false_iff_ne, ne_eq] at h
      simp [dictGet, h.1, ih h.2]

theorem mem_of_dictGet_some {α : Type} {d : List (String × α)} {k : String} {v : α}
    (h : dictGet d k = some v) : (k, v) ∈ d := by
  induction d with
  | nil => simp [dictGet] at h
  | cons a d ih =>
      by_cases hk : a.1 = k
      · have hav : a.2 = v := by simpa [dictGet, hk] using h
        have : (k, v) = a := by
          cases a
          simp_all
        rw [← this] at *
        exact List.mem_cons_self _ _
      · have h' : dictGet d k = some v := by simpa [dictGet, hk] using h
        exact List.mem_cons_of_mem _ (ih h')

theorem dictContains_of_dictGet_some {α : Type} {d : List (String × α)} {k : String}
    {v : α} (h : dictGet d k = some v) : dictContains d k = true := by
  induction d with
  | nil => simp [dictGet] at h
  | cons a d ih =>
      by_cases hk : a.1 = k
      · simp [dictContains, hk]
      · have h' : dictGet d k = some v := by simpa [dictGet, hk] using h
        simp [dictContains, hk, ih h']

theorem dictContains_dictDel_self {α : Type} (d : List (String × α)) (k : String) :
    dictContains (dictDel d k) k = false := by
  induction d with
  | nil => simp [dictDel, dictContains]
  | cons a d ih =>
      by_cases hk : a.1 = k
      · have hbne : (a.1 != k) = false := by simp [hk]
        have hdel : dictDel (a :: d) k = dictDel d k := by
          simp [dictDel, List.filter, hbne]
        rw [hdel]
        exact ih
      · have hbne : (a.1 != k) = true := by simpa [bne_iff_ne] using hk
        have hdel : dictDel (a :: d) k = a :: dictDel d k := by
          simp [dictDel, List.filter, hbne]
        simp [hdel, dictContains, hk, ih]

theorem dictGet_dictSet_self {α : Type} (d : List (String × α)) (k : String) (v : α) :
    dictGet (dictSet d k v) k = some v := by
  induction d with
  | nil => simp [dictSet, dictGet]
  | cons a d ih =>
      by_cases hk : a.1 = k
      · simp [dictSet, dictGet, hk]
      · simp [dictSet, dictGet, hk, ih]

theorem dictContains_dictSet_self {α : Type} (d : List (String × α)) (k : String)
    (v : α) : dictContains (dictSet d k v) k = true :=
  dictContains_of_dictGet_some (dictGet_dictSet_self d k v)

theorem mem_dictSet {α : Type} {d : List (String × α)} {k : String} {v : α}
    {p : String × α} (h : p ∈ dictSet d k v) : p ∈ d ∨ p = (k, v) := by
  induction d with
  | nil =>
      simp [dictSet] at h
      exact Or.inr h
  | cons a d ih =>
      by_cases hk : a.1 = k
      · simp only [dictSet, hk, beq_self_eq_true, if_true] at h
        rcases List.mem_cons.mp h with h' | h'
        · exact Or.inr h'
        · exact Or.inl (List.mem_cons_of_mem _ h')
      · simp only [dictSet, beq_iff_eq, hk, if_false] at h
        rcases List.mem_cons.mp h with h' | h'
        · exact Or.inl (h' ▸ List.mem_cons_self _ _)
        · rcases ih h' with h'' | h''
          · exact Or.inl (List.mem_cons_of_mem _ h'')
          · exact Or.inr h''

theorem not_mem_keys_of_not_contains {α : Type} {d : List (String × α)} {k : String}
    (h : dictContains d k = false) : k ∉ d.map Prod.fst := by
  induction d with
  | nil => simp
  | cons a d ih =>
      simp only [dictContains, Bool.or_eq_false_iff, beq_eq_false_iff_ne, ne_eq] at h
      simp only [List.map_cons, List.mem_cons]
      rintro (h' | h')
      · exact h.1 h'.symm
      · exact ih h.2 h'

theorem nodup_keys_dictDel {α : Type} {d : List (String × α)} (k : String)
    (h : (d.map Prod.fst).Nodup) : ((dictDel d k).map Prod.fst).Nodup := by
  induction d with
  | nil => simp [dictDel]
  | cons a d ih =>
      simp only [List.map_cons, List.nodup_cons] at h
      by_cases hk : a.1 = k
      · simpa [dictDel, List.filter, hk] using ih h.2
      · have hbne : (a.1 != k) = true := by simpa [bne_iff_ne] using hk
        have hdel : dictDel (a :: d) k = a :: dictDel d k := by
          simp [dictDel, List.filter, hbne]
        rw [hdel]
        simp only [List.map_cons, List.nodup_cons]
        refine ⟨fun hmem => h.1 ?_, ih h.2⟩
        obtain ⟨q, hq, hq1⟩ := List.mem_map.mp hmem
        exact List.mem_map.mpr ⟨q, (List.mem_filter.mp hq).1, hq1⟩

theorem pyDictLookup_ok_iff {α : Type} {d : List (String × α)} {k : String} {v : α} :
    pyDictLookup d k = .ok v ↔ dictGet d k = some v := by
  unfold pyDictLookup
  cases h : dictGet d k <;> simp [h]

/-! ### C10 — the falsy-`conn_id` guard of `handle_call_tool` -/

/-- C10: a tool invocation on a backend instance whose bound connection id
is `None` or empty returns the single structured failure
`{"success": false, "error": "conn_id is required for database
operations"}`, for every tool name and argument dict, with the pool state
untouched and zero database operations performed. -/
theorem C10_conn_id_guard (fetch : FetchOracle) (name : String)
    (arguments : Option (List (String × Json))) (db : Database)
    (connId : Option String) (h : connId = none ∨ connId = some "") :
    handle_call_tool fetch connId name arguments db =
      (some [Content.jsonObj [("success", .bool false),
        ("error", .str "conn_id is required for database operations")]], db, 0) := by
  rcases h with h | h <;> subst h <;> simp [handle_call_tool, connIdRequiredResp]

theorem C10_conn_id_guard_witness :
    handle_call_tool (fun _ _ => .ok []) none "pg_query"
        (some [("query", .str "SELECT 1")]) Database.mk0 =
      (some [Content.jsonObj [("success", .bool false),
        ("error", .str "conn_id is required for database operations")]],
       Database.mk0, 0) :=
  C10_conn_id_guard (fun _ _ => .ok []) "pg_query"
    (some [("query", .str "SELECT 1")]) Database.mk0 none (Or.inl rfl)

/-! ### C3 — token round-trip -/

/-- C3: verifying a freshly issued token before its 24-hour expiry returns
a payload whose `user_id` is the issuing subject; verifying it 25 hours
after issuance fails with the `Invalid or expired JWT token` error. -/
theorem C3_token_roundtrip (secret subject : String) (t now : Int)
    (hbefore : now < t + 24 * 3600) :
    (∃ p, verify_jwt_token secret (generate_jwt_token secret subject t) now = .ok p ∧
        p.user_id = some subject) ∧
    verify_jwt_token secret (generate_jwt_token secret subject t) (t + 25 * 3600) =
      .error "Invalid or expired JWT token" := by
  constructor
  · refine ⟨{ user_id := some subject, iat := t, exp := t + 24 * 3600 }, ?_, rfl⟩
    have hexp : ¬ (t + 86400 ≤ now) := by omega
    simp [verify_jwt_token, jwt_decode, generate_jwt_token, hexp]
  · have hexp : (t + 86400 : Int) ≤ t + 90000 := by omega
    simp [verify_jwt_token, jwt_decode, generate_jwt_token, hexp]

theorem C3_token_roundtrip_witness :
    ((0 : Int) < 0 + 24 * 3600) ∧
    ((∃ p, verify_jwt_token "s3cr3t" (generate_jwt_token "s3cr3t" "alice" 0) 0 = .ok p ∧
        p.user_id = some "alice") ∧
     verify_jwt_token "s3cr3t" (generate_jwt_token "s3cr3t" "alice" 0) (0 + 25 * 3600) =
       .error "Invalid or expired JWT token") :=
  ⟨by norm_num, C3_token_roundtrip "s3cr3t" "alice" 0 0 (by norm_num)⟩

/-! ### C7 — uniform verification failure -/

/-- C7: every structurally defective, wrongly signed, or expired token is
rejected by `verify_jwt_token` with the single
`ValueError("Invalid or expired JWT token")`, and `JWTMiddleware.dispatch`
surfaces exactly that one message in a 401 body — no distinct code or
message reveals which of the three checks failed. -/
theorem C7_uniform_invalid_token (secret : String) (now : Int) (tok : Token)
    (path : String) (hbad : tokenBad secret now tok) (hpath : path ∉ authSkipPaths) :
    verify_jwt_token secret tok now = .error "Invalid or expired JWT token" ∧
    jwtMiddlewareDispatch secret now path (.bearer tok) =
      .error { status := 401,
               body := [("error", .str "Invalid or expired JWT token")] } := by
  have hv : verify_jwt_token secret tok now = .error "Invalid or expired JWT token" := by
    cases tok with
    | malformed raw => simp [verify_jwt_token, jwt_decode]
    | signed p s =>
        simp only [tokenBad] at hbad
        rcases hbad with hsig | hexp
        · simp [verify_jwt_token, jwt_decode, hsig]
        · by_cases hsig : s = hmacSign secret p
          · simp [verify_jwt_token, jwt_decode, hsig, hexp]
          · simp [verify_jwt_token, jwt_decode, hsig]
  exact ⟨hv, by simp [jwtMiddlewareDispatch, hpath, hv]⟩

theorem C7_uniform_invalid_token_witness :
    tokenBad "s3cr3t" 0 (.malformed "not-a-jwt") ∧
    "/pg/alice" ∉ authSkipPaths ∧
    (verify_jwt_token "s3cr3t" (.malformed "not-a-jwt") 0 =
        .error "Invalid or expired JWT token" ∧
     jwtMiddlewareDispatch "s3cr3t" 0 "/pg/alice" (.bearer (.malformed "not-a-jwt")) =
        .error { status := 401,
                 body := [("error", .str "Invalid or expired JWT token")] }) :=
  ⟨trivial, by decide,
   C7_uniform_invalid_token "s3cr3t" 0 (.malformed "not-a-jwt") "/pg/alice"
     trivial (by decide)⟩

/-! ### C8 — missing `JWT_SECRET` does not abort startup -/

/-- C8 counterexample: with no constructor argument and `JWT_SECRET` unset,
`JWTUtils.__init__` succeeds and the held secret is the hard-coded
substitute `"default-secret"` — the issuer/verifier operate with it instead
of process start aborting. -/
theorem C8_counterexample :
    jwtUtilsInitSecret none none = "default-secret" ∧
    verify_jwt_token "default-secret"
        (generate_jwt_token "default-secret" "alice" 0) 0 =
      .ok { user_id := some "alice", iat := 0, exp := 0 + 24 * 3600 } := by
  constructor
  · rfl
  · have hexp : ¬ ((0 : Int) + 24 * 3600 ≤ 0) := by norm_num
    simp [verify_jwt_token, jwt_decode, generate_jwt_token, hexp]

/-- C8 (amended): when the `JWT_SECRET` environment variable is unset and
no explicit secret is passed, startup proceeds with the fallback of
`environ.get`, the hard-coded `"default-secret"`, and the token
issuer/verifier operate with that substitute secret. -/
theorem C8_default_secret_fallback :
    (∀ env : Option String, jwtUtilsInitSecret none env = environGet env "default-secret") ∧
    jwtUtilsInitSecret none none = "default-secret" ∧
    (∃ p, verify_jwt_token (jwtUtilsInitSecret none none)
        (generate_jwt_token (jwtUtilsInitSecret none none) "alice" 0) 0 = .ok p ∧
      p.user_id = some "alice") := by
  refine ⟨fun env => rfl, rfl, ⟨{ user_id := some "alice", iat := 0, exp := 0 + 24 * 3600 }, ?_, rfl⟩⟩
  have hexp : ¬ ((0 : Int) + 24 * 3600 ≤ 0) := by norm_num
  simp [verify_jwt_token, jwt_decode, generate_jwt_token, jwtUtilsInitSecret,
    pyOrStr, environGet, hexp]

/-! ### C9 — read-only transaction mode -/

/-- C9: every pool construction passes
`server_settings={"default_transaction_read_only": "true"}` (so pools only
ever hold read-only-mode connections), and the query path issues
`SET TRANSACTION READ ONLY` on the acquired connection before the caller's
SQL. -/
theorem C9_read_only_mode :
    (∀ (db : Database) (cid : String) (db' : Database),
        db.initPool cid = .ok db' →
        ∀ kp ∈ db'.pools, kp ∈ db.pools ∨ kp.2.server_settings = poolServerSettings) ∧
    (∀ (db : Database) (cid : String) (db' : Database) (p : Pool),
        poolsReadOnly db → db.get_connection cid = .ok (db', p) →
        p.server_settings = poolServerSettings ∧ poolsReadOnly db') ∧
    (∀ (fetch : FetchOracle) (db : Database) (q : Json) (cid : String)
        (ps : Option (List Json)) (db' : Database) (resp : List Content)
        (cmds : List Json),
        execute_query fetch db q cid ps = .ok (db', resp, cmds) →
        cmds = [.str "SET TRANSACTION READ ONLY", q]) := by
  have hinit : ∀ (db : Database) (cid : String) (db' : Database),
      db.initPool cid = .ok db' →
      ∀ kp ∈ db'.pools, kp ∈ db.pools ∨ kp.2.server_settings = poolServerSettings := by
    intro db cid db' h kp hmem
    unfold Database.initPool at h
    by_cases h0 : cid = ""
    · simp [h0] at h
    · simp only [h0, if_false] at h
      by_cases h1 : dictContains db.pools cid = true
      · simp only [h1, if_true] at h
        cases h
        exact Or.inl hmem
      · simp only [Bool.not_eq_true] at h1
        simp only [h1, Bool.false_eq_true, if_false] at h
        cases hgs : db.get_connection_string cid with
        | error e => simp [hgs] at h
        | ok cs =>
            simp only [hgs] at h
            cases h
            rcases mem_dictSet hmem with h' | h'
            · exact Or.inl h'
            · right
              rw [h']
              rfl
  refine ⟨hinit, ?_, ?_⟩
  · intro db cid db' p hro h
    unfold Database.get_connection at h
    by_cases h1 : dictContains db.pools cid = true
    · simp only [h1, if_true] at h
      cases hl : pyDictLookup db.pools cid with
      | error e => simp [hl] at h
      | ok q =>
          simp only [hl] at h
          cases h
          exact ⟨hro _ (mem_of_dictGet_some (pyDictLookup_ok_iff.mp hl)), hro⟩
    · simp only [Bool.not_eq_true] at h1
      simp only [h1, Bool.false_eq_true, if_false] at h
      cases hi : db.initPool cid with
      | error e => simp [hi] at h
      | ok db₁ =>
          simp only [hi] at h
          cases hl : pyDictLookup db₁.pools cid with
          | error e => simp [hl] at h
          | ok q =>
              simp only [hl] at h
              cases h
              have hro₁ : poolsReadOnly db' := by
                intro kp hkp
                rcases hinit db cid _ hi kp hkp with h' | h'
                · exact hro kp h'
                · exact h'
              exact ⟨hro₁ _ (mem_of_dictGet_some (pyDictLookup_ok_iff.mp hl)), hro₁⟩
  · intro fetch db q cid ps db' resp cmds h
    unfold execute_query at h
    cases hg : db.get_connection cid with
    | error e => simp [hg] at h
    | ok r =>
        simp only [hg] at h
        cases hf : fetch q (ps.getD []) with
        | ok records => simp [hf] at h; exact h.2.2.symm
        | error e => simp [hf] at h; exact h.2.2.symm

theorem C9_read_only_mode_witness :
    poolsReadOnly c5Db ∧
    c5Db.get_connection "db1" = .ok (c9Db', mkPool 0 (.str "s")) ∧
    ((mkPool 0 (.str "s")).server_settings = poolServerSettings ∧ poolsReadOnly c9Db') :=
  ⟨fun kp hkp => by simp [c5Db] at hkp, rfl,
   C9_read_only_mode.2.1 c5Db "db1" c9Db' (mkPool 0 (.str "s"))
     (fun kp hkp => by simp [c5Db] at hkp) rfl⟩

theorem dictSet_eq_append_of_not_contains {α : Type} {d : List (String × α)}
    {k : String} (h : dictContains d k = false) (v : α) :
    dictSet d k v = d ++ [(k, v)] := by
  induction d with
  | nil => simp [dictSet]
  | cons a d ih =>
      simp only [dictContains, Bool.or_eq_false_iff, beq_eq_false_iff_ne, ne_eq] at h
      simp [dictSet, h.1, ih h.2]

/-! ### C5 — no per-identifier initialization lock -/

/-- C5 counterexample: from a state with the config applied and no pool,
the interleaving in which both tasks run the first segment of
`Database.initialize("db1")` before either runs its second constructs two
pools (`next_pool_id` counts constructions), both callers finish
successfully, and 2 ≠ 1 — refuting "counting pool-construction side
effects for one identifier always yields one". -/
theorem C5_counterexample :
    (runSched "db1" [true, false, true, false] c5Start).db.next_pool_id = 2 ∧
    (runSched "db1" [true, false, true, false] c5Start).t1 = .finished (.ok ()) ∧
    (runSched "db1" [true, false, true, false] c5Start).t2 = .finished (.ok ()) ∧
    (2 : Nat) ≠ 1 :=
  ⟨rfl, rfl, rfl, by decide⟩

/-- C5 (amended): `Database.initialize` takes no lock, so concurrent
initializations of the same identifier are not serialized: two calls that
do not overlap construct exactly one pool, but two calls that both pass
the `conn_id in self._pools` check before either stores its pool each
construct one — two constructions for one identifier. -/
theorem C5_no_init_lock (db : Database) (kvs : List (String × Json)) (cid : String)
    (hmap : db.connection_map = .obj kvs)
    (hin : dictContains kvs cid = true)
    (hnp : dictContains db.pools cid = false)
    (hne : cid ≠ "") :
    (runSched cid [true, true, false, false]
        { db := db, t1 := .ready, t2 := .ready }).db.next_pool_id
      = db.next_pool_id + 1 ∧
    (runSched cid [true, false, true, false]
        { db := db, t1 := .ready, t2 := .ready }).db.next_pool_id
      = db.next_pool_id + 2 := by
  obtain ⟨v, hv⟩ := dictGet_eq_some_of_contains hin
  have hgs : db.get_connection_string cid = .ok v := by
    simp [Database.get_connection_string, hmap, hv]
  constructor
  · simp [runSched, stepInit, hne, hnp, Database.get_connection_string, hmap, hv,
      dictContains_dictSet_self]
  · simp [runSched, stepInit, hne, hnp, Database.get_connection_string, hmap, hv]

theorem C5_no_init_lock_witness :
    (runSched "db1" [true, true, false, false]
        { db := c5Db, t1 := .ready, t2 := .ready }).db.next_pool_id
      = c5Db.next_pool_id + 1 ∧
    (runSched "db1" [true, false, true, false]
        { db := c5Db, t1 := .ready, t2 := .ready }).db.next_pool_id
      = c5Db.next_pool_id + 2 :=
  C5_no_init_lock c5Db [("db1", .str "s")] "db1" rfl rfl rfl (by decide)

/-! ### C1 — unknown identifiers -/

/-- C1 (amended): an identifier that is absent from the current connection
map and has no open pool fails `acquire`/`get_connection` without touching
the pool map — with `ValueError("Unknown connection ID <id>")` when the
identifier is nonempty, and with `ValueError("Connection ID is required")`
for the empty (falsy) identifier.  (An error return is exactly the
source's behaviour of raising before the only mutating statement, so the
pool map is unchanged.) -/
theorem C1_unknown_identifier (db : Database) (kvs : List (String × Json)) (cid : String)
    (hmap : db.connection_map = .obj kvs)
    (habs : dictContains kvs cid = false)
    (hnp : dictContains db.pools cid = false) :
    (cid ≠ "" →
      db.initPool cid = .error (.valueError ("Unknown connection ID " ++ cid)) ∧
      db.get_connection cid = .error (.valueError ("Unknown connection ID " ++ cid))) ∧
    (cid = "" →
      db.initPool cid = .error (.valueError "Connection ID is required") ∧
      db.get_connection cid = .error (.valueError "Connection ID is required")) := by
  have hget : dictGet kvs cid = none := dictGet_eq_none_of_not_contains habs
  have hgs : db.get_connection_string cid =
      .error (.valueError ("Unknown connection ID " ++ cid)) := by
    simp [Database.get_connection_string, hmap, hget]
  constructor
  · intro hne
    have hi : db.initPool cid = .error (.valueError ("Unknown connection ID " ++ cid)) := by
      simp [Database.initPool, hne, hnp, hgs]
    exact ⟨hi, by simp [Database.get_connection, hnp, hi]⟩
  · intro he
    subst he
    have hi : db.initPool "" = .error (.valueError "Connection ID is required") := by
      simp [Database.initPool]
    exact ⟨hi, by simp [Database.get_connection, hnp, hi]⟩

theorem C1_unknown_identifier_witness :
    ("nope" ≠ "" → 
      c5Db.initPool "nope" = .error (.valueError ("Unknown connection ID " ++ "nope")) ∧
      c5Db.get_connection "nope" = .error (.valueError ("Unknown connection ID " ++ "nope"))) ∧
    ("nope" = "" →
      c5Db.initPool "nope" = .error (.valueError "Connection ID is required") ∧
      c5Db.get_connection "nope" = .error (.valueError "Connection ID is required")) :=
  C1_unknown_identifier c5Db [("db1", .str "s")] "nope" rfl rfl rfl

/-! ### C6 — close removes the pool; re-acquire builds a fresh one -/

/-- C6: after `close(conn_id)` on an identifier with an open pool, the pool
map no longer holds the identifier; a subsequent `get_connection` for an
identifier still in the connection map succeeds by constructing a
brand-new pool (allocated at the current construction counter, hence
distinct from the closed one), stored as the single entry for that key
(keys stay distinct — at most one pool per identifier). -/
theorem C6_close_then_fresh_pool (db : Database) (cid : String) (p : Pool)
    (kvs : List (String × Json)) (hwf : db.WF)
    (hp : dictGet db.pools cid = some p)
    (hmap : db.connection_map = .obj kvs)
    (hin : dictContains kvs cid = true) :
    dictContains (db.close (some cid)).pools cid = false ∧
    ∃ db' q, (db.close (some cid)).get_connection cid = .ok (db', q) ∧
      q.id = db.next_pool_id ∧ q ≠ p ∧ dictGet db'.pools cid = some q ∧
      (db'.pools.map Prod.fst).Nodup := by
  obtain ⟨hnodup, hprops⟩ := hwf
  have hmem := mem_of_dictGet_some hp
  obtain ⟨hne0, hlt0⟩ := hprops (cid, p) hmem
  have hne : cid ≠ "" := hne0
  have hlt : p.id < db.next_pool_id := hlt0
  have hcont : dictContains db.pools cid = true := dictContains_of_dictGet_some hp
  have hclose : db.close (some cid) = { db with pools := dictDel db.pools cid } := by
    simp [Database.close, hne, hcont]
  obtain ⟨v, hv⟩ := dictGet_eq_some_of_contains hin
  have hnc : dictContains (dictDel db.pools cid) cid = false :=
    dictContains_dictDel_self _ _
  have hgs : ({ db with pools := dictDel db.pools cid } : Database).get_connection_string cid = .ok v := by
    simp [Database.get_connection_string, hmap, hv]
  have hrun : ({ db with pools := dictDel db.pools cid } : Database).get_connection cid =
      .ok ({ db with
              pools := dictSet (dictDel db.pools cid) cid (mkPool db.next_pool_id v),
              next_pool_id := db.next_pool_id + 1 },
           mkPool db.next_pool_id v) := by
    simp [Database.get_connection, Database.initPool, hnc, hne, hgs, pyDictLookup,
      dictGet_dictSet_self]
  rw [hclose]
  refine ⟨hnc, _, mkPool db.next_pool_id v, hrun, rfl, ?_, ?_, ?_⟩
  · intro hqp
    have hid : (mkPool db.next_pool_id v).id = p.id := congrArg Pool.id hqp
    simp [mkPool] at hid
    omega
  · exact dictGet_dictSet_self _ _ _
  · rw [dictSet_eq_append_of_not_contains hnc]
    rw [List.map_append]
    refine List.Nodup.append (nodup_keys_dictDel cid hnodup) (by simp) ?_
    intro x hx hx'
    simp at hx'
    subst hx'
    exact not_mem_keys_of_not_contains hnc hx

theorem C6_close_then_fresh_pool_witness :
    dictContains (c4Db.close (some "db1")).pools "db1" = false ∧
    ∃ db' q, (c4Db.close (some "db1")).get_connection "db1" = .ok (db', q) ∧
      q.id = c4Db.next_pool_id ∧ q ≠ mkPool 0 (.str "s") ∧
      dictGet db'.pools "db1" = some q ∧ (db'.pools.map Prod.fst).Nodup :=
  C6_close_then_fresh_pool c4Db "db1" (mkPool 0 (.str "s")) [("db1", .str "s")]
    ⟨by simp [c4Db], by
      intro kp hkp
      simp [c4Db] at hkp
      subst hkp
      exact ⟨by decide, by simp [c4Db, mkPool]⟩⟩
    rfl rfl rfl

/-! ### Order lemmas for the canonical serialization -/

theorem charLtB_irrefl (a : Char) : charLtB a a = false := by
  simp [charLtB]

theorem charLtB_trans {a b c : Char} (h1 : charLtB a b = true)
    (h2 : charLtB b c = true) : charLtB a c = true := by
  simp [charLtB] at h1 h2 ⊢
  omega

theorem charLtB_eq_of_not {a b : Char} (h1 : charLtB a b = false)
    (h2 : charLtB b a = false) : a = b := by
  simp [charLtB, Char.toNat] at h1 h2
  exact Char.ext (UInt32.ext (by omega))

theorem charsLtB_irrefl : ∀ l : List Char, charsLtB l l = false := by
  intro l
  induction l with
  | nil => simp [charsLtB]
  | cons a l ih => simp [charsLtB, charLtB_irrefl, ih]

theorem charsLtB_trans : ∀ (as bs cs : List Char), charsLtB as bs = true →
    charsLtB bs cs = true → charsLtB as cs = true := by
  intro as
  induction as with
  | nil =>
      intro bs cs h1 h2
      cases bs with
      | nil => simp [charsLtB] at h1
      | cons b bs =>
          cases cs with
          | nil => simp [charsLtB] at h2
          | cons c cs => simp [charsLtB]
  | cons a as ih =>
      intro bs cs h1 h2
      cases bs with
      | nil => simp [charsLtB] at h1
      | cons b bs =>
          cases cs with
          | nil => simp [charsLtB] at h2
          | cons c cs =>
              simp only [charsLtB] at h1 h2 ⊢
              by_cases hab : charLtB a b = true
              · by_cases hbc : charLtB b c = true
                · simp [charLtB_trans hab hbc]
                · simp only [hbc, Bool.false_eq_true, if_false] at h2
                  by_cases hcb : charLtB c b = true
                  · simp [hcb] at h2
                  · have hbceq : b = c :=
                      charLtB_eq_of_not (by simpa using hbc) (by simpa using hcb)
                    subst hbceq
                    simp [hab]
              · simp only [hab, Bool.false_eq_true, if_false] at h1
                by_cases hba : charLtB b a = true
                · simp [hba] at h1
                · simp only [hba, Bool.false_eq_true, if_false] at h1
                  have habeq : a = b :=
                    charLtB_eq_of_not (by simpa using hab) (by simpa using hba)
                  subst habeq
                  by_cases hac : charLtB a c = true
                  · simp [hac]
                  · simp only [hac, Bool.false_eq_true, if_false] at h2 ⊢
                    by_cases hca : charLtB c a = true
                    · simp [hca] at h2
                    · simp only [hca, Bool.false_eq_true, if_false] at h2 ⊢
                      exact ih bs cs h1 h2

theorem charsLtB_eq_of_not : ∀ (as bs : List Char), charsLtB as bs = false →
    charsLtB bs as = false → as = bs := by
  intro as
  induction as with
  | nil =>
      intro bs h1 h2
      cases bs with
      | nil => rfl
      | cons b bs => simp [charsLtB] at h1
  | cons a as ih =>
      intro bs h1 h2
      cases bs with
      | nil => simp [charsLtB] at h2
      | cons b bs =>
          simp only [charsLtB] at h1 h2
          by_cases hab : charLtB a b = true
          · simp [hab] at h1
          · by_cases hba : charLtB b a = true
            · simp [hba] at h2
            · have habeq : a = b :=
                charLtB_eq_of_not (by simpa using hab) (by simpa using hba)
              simp only [hab, Bool.false_eq_true, if_false, hba] at h1 h2
              rw [habeq, ih bs (by simpa [charsLtB_irrefl, habeq] using h1)
                (by simpa [charsLtB_irrefl, habeq] using h2)]

theorem strLtB_trans {a b c : String} (h1 : strLtB a b = true)
    (h2 : strLtB b c = true) : strLtB a c = true :=
  charsLtB_trans a.data b.data c.data h1 h2

theorem strLtB_irrefl (a : String) : strLtB a a = false :=
  charsLtB_irrefl a.data

theorem strLtB_eq_of_not {a b : String} (h1 : strLtB a b = false)
    (h2 : strLtB b a = false) : a = b :=
  String.ext (charsLtB_eq_of_not a.data b.data h1 h2)

theorem strLtB_asymm {a b : String} (h : strLtB a b = true) : strLtB b a = false := by
  by_contra hc
  have hba : strLtB b a = true := by
    cases hcase : strLtB b a
    · exact absurd hcase hc
    · rfl
  have := strLtB_trans h hba
  simp [strLtB_irrefl] at this

theorem pairLe_iff {a b : String × String} :
    pairLe a b ↔ strLtB a.1 b.1 = true ∨ (a.1 = b.1 ∧ strLtB b.2 a.2 = false) := by
  simp [pairLe, pairLeB, Bool.or_eq_true, Bool.and_eq_true]

theorem pairLe_total : ∀ a b : String × String, pairLe a b ∨ pairLe b a := by
  intro a b
  by_cases t1 : strLtB a.1 b.1 = true
  · exact Or.inl (pairLe_iff.mpr (Or.inl t1))
  · by_cases t2 : strLtB b.1 a.1 = true
    · exact Or.inr (pairLe_iff.mpr (Or.inl t2))
    · have hkeys : a.1 = b.1 :=
        strLtB_eq_of_not (by simpa using t1) (by simpa using t2)
      by_cases t3 : strLtB b.2 a.2 = true
      · exact Or.inr (pairLe_iff.mpr (Or.inr ⟨hkeys.symm, strLtB_asymm t3⟩))
      · exact Or.inl (pairLe_iff.mpr (Or.inr ⟨hkeys, by simpa using t3⟩))

theorem strLtB_negtrans {a b c : String} (h1 : strLtB a b = false)
    (h2 : strLtB b c = false) : strLtB a c = false := by
  by_contra hc
  have hac : strLtB a c = true := by
    cases hcase : strLtB a c
    · exact absurd hcase hc
    · rfl
  by_cases hcb : strLtB c b = true
  · have := strLtB_trans hac hcb
    simp [this] at h1
  · have hbc : b = c := strLtB_eq_of_not h2 (by simpa using hcb)
    rw [← hbc] at hac
    simp [hac] at h1

theorem pairLe_trans : ∀ a b c : String × String, pairLe a b → pairLe b c → pairLe a c := by
  intro a b c h1 h2
  rcases pairLe_iff.mp h1 with hk1 | ⟨he1, hv1⟩
  · rcases pairLe_iff.mp h2 with hk2 | ⟨he2, hv2⟩
    · exact pairLe_iff.mpr (Or.inl (strLtB_trans hk1 hk2))
    · exact pairLe_iff.mpr (Or.inl (he2 ▸ hk1))
  · rcases pairLe_iff.mp h2 with hk2 | ⟨he2, hv2⟩
    · exact pairLe_iff.mpr (Or.inl (he1 ▸ hk2))
    · exact pairLe_iff.mpr (Or.inr ⟨he1.trans he2, strLtB_negtrans hv2 hv1⟩)

theorem pairLe_antisymm : ∀ a b : String × String, pairLe a b → pairLe b a → a = b := by
  intro a b h1 h2
  rcases pairLe_iff.mp h1 with hk1 | ⟨he1, hv1⟩
  · rcases pairLe_iff.mp h2 with hk2 | ⟨he2, hv2⟩
    · have := strLtB_trans hk1 hk2
      simp [strLtB_irrefl] at this
    · rw [he2] at hk1
      simp [strLtB_irrefl] at hk1
  · rcases pairLe_iff.mp h2 with hk2 | ⟨he2, hv2⟩
    · rw [he1] at hk2
      simp [strLtB_irrefl] at hk2
    · have hv : a.2 = b.2 := strLtB_eq_of_not hv2 hv1
      exact Prod.ext he1 hv

instance : IsTotal (String × String) pairLe := ⟨pairLe_total⟩

instance : IsTrans (String × String) pairLe := ⟨pairLe_trans⟩

instance : IsAntisymm (String × String) pairLe := ⟨pairLe_antisymm⟩

theorem dumpsPairs_eq_map (kvs : List (String × Json)) :
    dumpsPairs kvs = kvs.map (fun p => (p.1, dumps p.2)) := by
  induction kvs with
  | nil => simp [dumpsPairs]
  | cons a kvs ih =>
      cases a
      simp [dumpsPairs, ih]

theorem insertionSort_pairLe_perm_eq {l₁ l₂ : List (String × String)}
    (h : l₁.Perm l₂) :
    List.insertionSort pairLe l₁ = List.insertionSort pairLe l₂ :=
  List.eq_of_perm_of_sorted
    ((List.perm_insertionSort pairLe l₁).trans
      (h.trans (List.perm_insertionSort pairLe l₂).symm))
    (List.sorted_insertionSort pairLe l₁)
    (List.sorted_insertionSort pairLe l₂)

/-! ### C2 — idempotent reload under unchanged content -/

/-- C2: when the freshly computed hash of the re-read content equals the
last applied hash, `_reload_config_if_changed` returns before the swap —
the connection map, the stored hash and the pool map are all exactly the
previous state; and the hash is computed over a key-sorted serialization,
so two documents holding the same mapping in different key order hash
identically. -/
theorem C2_reload_idempotent :
    (∀ (db : Database) (c : Json), db.last_config_hash = some (hash_config c) →
        db.reload_config_step (.parsed c) = db) ∧
    (∀ kvs₁ kvs₂ : List (String × Json), kvs₁.Perm kvs₂ →
        hash_config (.obj kvs₁) = hash_config (.obj kvs₂)) := by
  constructor
  · intro db c h
    simp [Database.reload_config_step, h]
  · intro kvs₁ kvs₂ h
    have hperm : (dumpsPairs kvs₁).Perm (dumpsPairs kvs₂) := by
      rw [dumpsPairs_eq_map, dumpsPairs_eq_map]
      exact h.map _
    simp only [hash_config, dumps]
    rw [insertionSort_pairLe_perm_eq hperm]

theorem C2_reload_idempotent_witness :
    c2Db.reload_config_step (.parsed c2Cfg) = c2Db ∧
    hash_config (.obj [("a", .str "1"), ("b", .str "2")]) =
      hash_config (.obj [("b", .str "2"), ("a", .str "1")]) :=
  ⟨C2_reload_idempotent.1 c2Db c2Cfg rfl,
   C2_reload_idempotent.2 _ _ (List.Perm.swap ("b", Json.str "2") ("a", Json.str "1") [])⟩

/-! ### Concrete serializations -/

theorem hash_config_arr_x : hash_config (Json.arr [Json.str "x"]) = "[\x22x\x22]" := by
  simp [hash_config, dumps, dumpsList]

theorem hash_config_empty_obj : hash_config (Json.obj []) = "\x7b\x7d" := by
  simp [hash_config, dumps, dumpsPairs, renderPairs, List.insertionSort]
  rfl

theorem hash_config_ceCfg1 : hash_config ceCfg1 = "\x7b\x22db1\x22: \x22s\x22\x7d" := by
  simp [hash_config, ceCfg1, dumps, dumpsPairs, renderPairs, renderPair,
    List.insertionSort, List.orderedInsert]
  rfl

/-! ### C4 — no shape validation on reload -/

/-- C4 counterexample: applying a parsed JSON array over a state holding a
mapping snapshot swaps the array in: the connection map and the stored
hash are replaced by the non-mapping content — not retained as the claim
states. -/
theorem C4_counterexample :
    (c4Db.reload_config_step (.parsed (.arr [.str "x"]))).connection_map =
      .arr [.str "x"] ∧
    (c4Db.reload_config_step (.parsed (.arr [.str "x"]))).last_config_hash =
      some (hash_config (.arr [.str "x"])) ∧
    c4Db.connection_map = .obj [("db1", .str "s")] := by
  have hne : (some (hash_config (Json.arr [Json.str "x"])) == c4Db.last_config_hash)
      = false := by
    show (some (hash_config (Json.arr [Json.str "x"])) == some (hash_config ceCfg1))
        = false
    rw [hash_config_arr_x, hash_config_ceCfg1]
    decide
  refine ⟨?_, ?_, rfl⟩ <;> simp [Database.reload_config_step, hne]

/-- C4 (amended): the reload never touches pools and retains the previous
snapshot on a missing file or a read/parse failure, but performs no shape
validation on parsed content: any parsed document whose hash differs from
the stored hash — a JSON array as much as a mapping — replaces both the
connection map and the stored hash. -/
theorem C4_reload_no_shape_validation :
    (∀ (db : Database) (r : ReadResult), (db.reload_config_step r).pools = db.pools) ∧
    (∀ db : Database, db.reload_config_step .readError = db ∧
        db.reload_config_step .missingFile = db) ∧
    (∀ (db : Database) (c : Json),
        (some (hash_config c) == db.last_config_hash) = false →
        (db.reload_config_step (.parsed c)).connection_map = c ∧
        (db.reload_config_step (.parsed c)).last_config_hash =
          some (hash_config c)) := by
  refine ⟨?_, fun db => ⟨rfl, rfl⟩, ?_⟩
  · intro db r
    cases r with
    | missingFile => rfl
    | readError => rfl
    | parsed c =>
        simp only [Database.reload_config_step]
        split
        · rfl
        · rfl
  · intro db c h
    constructor <;> simp [Database.reload_config_step, h]

theorem C4_reload_no_shape_validation_witness :
    ((some (hash_config (Json.arr [Json.str "x"])) == c5Db.last_config_hash)
      = false) ∧
    ((c5Db.reload_config_step (.parsed (.arr [.str "x"]))).connection_map =
        .arr [.str "x"] ∧
     (c5Db.reload_config_step (.parsed (.arr [.str "x"]))).last_config_hash =
        some (hash_config (.arr [.str "x"]))) :=
  ⟨rfl, C4_reload_no_shape_validation.2.2 c5Db (.arr [.str "x"]) rfl⟩

/-! ### C1 counterexample — a pool outlives its config entry -/

/-- C1 counterexample: in the reachable state built by applying a config
holding `"db1"`, initializing its pool, then applying a config from which
`"db1"` was removed, the identifier is absent from the snapshot, yet
`get_connection "db1"` succeeds from the surviving pool instead of failing
with the unknown-identifier `ValueError`. -/
theorem C1_counterexample :
    ceDb3.connection_map = .obj [] ∧
    ceDb3.get_connection "db1" = .ok (ceDb3, mkPool 0 (.str "s")) := by
  have h2 : ceDb2 =
      { pools := [("db1", mkPool 0 (.str "s"))], connection_map := ceCfg1,
        last_config_hash := some (hash_config ceCfg1), next_pool_id := 1 } := rfl
  have hne : (some (hash_config (Json.obj [])) == some (hash_config ceCfg1))
      = false := by
    rw [hash_config_empty_obj, hash_config_ceCfg1]
    decide
  have h3 : ceDb3 =
      { pools := [("db1", mkPool 0 (.str "s"))], connection_map := .obj [],
        last_config_hash := some (hash_config (.obj [])), next_pool_id := 1 } := by
    have hstep : ceDb3 = ceDb2.reload_config_step (.parsed (.obj [])) := rfl
    rw [hstep, h2]
    simp [Database.reload_config_step, hne]
  rw [h3]
  exact ⟨rfl, rfl⟩
